import Mathlib

/-!
Shallow embedding of the event broadcast core of
`src/src/remote_mcp/event_manager.py` (python-remote-mcp-with-app-template).

Modelling conventions:
* Wall-clock instants (`datetime.now()`, `time.time()`) are natural numbers
  counting seconds; an ISO-8601 timestamp string compares lexicographically
  exactly as its instant compares numerically, so `Event.timestamp : Nat`.
* Python `dict`s keyed by strings are association lists; `set`s of strings are
  duplicate-free lists maintained by insert-if-absent.
* Values stored in `Connection.metadata` are abstracted to their Python
  truthiness (only `metadata.get("temporary")`'s truthiness is ever read).
* Freshly generated `uuid4` identifiers are taken as caller-supplied opaque
  strings.
* Fallible operations return `Except`; `asyncio` interleavings are modelled by
  explicit sequential state passing, which is faithful because every block the
  claims touch runs between await points or under `ConnectionPool._lock`.
-/

namespace RemoteMcp

/-- Constants of `EventConfig` (event_manager.py lines 30-43). -/
def MAX_EVENT_HISTORY : Nat := 1000

def MAX_QUEUE_SIZE : Nat := 100

def DEFAULT_TIMEOUT : Nat := 30

def MAX_TIMEOUT : Nat := 300

def EVENT_TTL : Nat := 3600

def MAX_CONNECTIONS : Nat := 100

def RATE_LIMIT_EVENTS : Nat := 1000

def RATE_LIMIT_WINDOW : Nat := 60

/-- The `EventType` enum (lines 49-78). -/
inductive EventType
  | create | update | delete | read | list | batch
  | navigate | refresh | focus
  | connect | disconnect | heartbeat | error | success | warning
  | sync_start | sync_end | conflict
  | custom
deriving DecidableEq, Repr

/-- The `.value` string of each `EventType` member. -/
def EventType.value : EventType → String
  | .create => "create" | .update => "update" | .delete => "delete"
  | .read => "read" | .list => "list" | .batch => "batch"
  | .navigate => "navigate" | .refresh => "refresh" | .focus => "focus"
  | .connect => "connect" | .disconnect => "disconnect"
  | .heartbeat => "heartbeat" | .error => "error" | .success => "success"
  | .warning => "warning" | .sync_start => "sync_start"
  | .sync_end => "sync_end" | .conflict => "conflict" | .custom => "custom"

/-- The `EventPriority` enum (lines 80-85). -/
inductive EventPriority
  | low | normal | high | critical
deriving DecidableEq, Repr

/-- The `.value` integer of each `EventPriority` member. -/
def EventPriority.value : EventPriority → Nat
  | .low => 0 | .normal => 1 | .high => 2 | .critical => 3

/-- The `.name` string of each `EventPriority` member. -/
def EventPriority.name : EventPriority → String
  | .low => "LOW" | .normal => "NORMAL" | .high => "HIGH" | .critical => "CRITICAL"

/-- The `Event` dataclass (lines 87-141), after `__post_init__` has run: `ttl` is a
plain natural number (`None` was replaced by `EventConfig.EVENT_TTL`), and a
ttl explicitly passed as `0` stays `0` (a falsy value in Python).
`timestamp` is the creation instant. -/
structure Event where
  id : String
  type : EventType
  source : String
  target : String
  action : String
  data : List (String × String)
  metadata : List (String × String)
  timestamp : Nat
  priority : EventPriority
  ttl : Nat
  retry_count : Nat
  correlation_id : Option String
deriving DecidableEq, Repr

/-- Event construction as `Event(...)` followed by `__post_init__`
(lines 103-112): a `ttl` of `None` becomes `EventConfig.EVENT_TTL`. -/
def mkEvent (id : String) (type : EventType) (source target action : String)
    (data : List (String × String)) (metadata : List (String × String))
    (timestamp : Nat) (priority : EventPriority) (ttl : Option Nat)
    (correlation_id : Option String) : Event :=
  { id, type, source, target, action, data, metadata, timestamp, priority,
    ttl := ttl.getD EVENT_TTL, retry_count := 0, correlation_id }

/-- The method `Event.is_expired` (lines 136-141): `if not self.ttl: return False`
treats a ttl of `0` (or `None`, impossible after `__post_init__`) as falsy and
never expires such an event; otherwise expired iff
`now - created > timedelta(seconds=ttl)`.  A negative Python timedelta is
never `>` a non-negative ttl, matching truncated `Nat` subtraction. -/
def Event.is_expired (e : Event) (now : Nat) : Bool :=
  if e.ttl = 0 then false
  else decide (now - e.timestamp > e.ttl)

/-- The `since` field of a filter: the Python code distinguishes a
36-character string (UUID event-id format, line 169, recognised but ignored)
from an ISO timestamp (numeric instant here). -/
inductive SinceVal
  | eventId (s : String)
  | ts (t : Nat)
deriving DecidableEq, Repr

/-- The `EventFilter` dataclass (lines 143-152). -/
structure EventFilter where
  types : Option (List EventType) := none
  sources : Option (List String) := none
  targets : Option (List String) := none
  priority_min : EventPriority := .low
  exclude_expired : Bool := true
  since : Option SinceVal := none
  correlation_id : Option String := none
deriving DecidableEq, Repr

/-- Python truthiness of an `Optional[List[...]]`: `None` and `[]` are falsy. -/
def optListTruthy {α : Type} : Option (List α) → Bool
  | none => false
  | some l => !l.isEmpty

/-- Python truthiness of an `Optional[str]`: `None` and `""` are falsy. -/
def optStrTruthy : Option String → Bool
  | none => false
  | some s => !s.isEmpty

/-- The predicate `EventFilter.matches` (lines 154-175).  `now` is the instant at which the
check runs (`datetime.now()` inside `Event.is_expired`).  The `since` UUID
branch (line 169-171) is a recognised no-op (`pass`). -/
def EventFilter.matches (f : EventFilter) (now : Nat) (e : Event) : Bool :=
  if f.exclude_expired && e.is_expired now then false
  else if optListTruthy f.types && !((f.types.getD []).contains e.type) then false
  else if optListTruthy f.sources && !((f.sources.getD []).contains e.source) then false
  else if optListTruthy f.targets && !((f.targets.getD []).contains e.target) then false
  else if e.priority.value < f.priority_min.value then false
  else if optStrTruthy f.correlation_id && !(e.correlation_id == f.correlation_id) then false
  else match f.since with
    | some (.eventId _) => true
    | some (.ts t) => !(e.timestamp < t)
    | none => true

/-- Equality of `Except` results is decidable when both components are. -/
instance {ε α : Type} [DecidableEq ε] [DecidableEq α] :
    DecidableEq (Except ε α) := fun x y =>
  match x, y with
  | .error e, .error f =>
    if h : e = f then .isTrue (h ▸ rfl)
    else .isFalse (fun hh => h (by cases hh; rfl))
  | .error _, .ok _ => .isFalse (fun hh => Except.noConfusion hh)
  | .ok _, .error _ => .isFalse (fun hh => Except.noConfusion hh)
  | .ok a, .ok b =>
    if h : a = b then .isTrue (h ▸ rfl)
    else .isFalse (fun hh => h (by cases hh; rfl))

/-- The `Connection` dataclass (lines 181-205).  `subscriptions` is a Python
`set` of channel strings (duplicate-free list); `queue` is the bounded
`asyncio.Queue` holding undelivered events in FIFO order; metadata values are
abstracted to their truthiness. -/
structure Connection where
  id : String
  created_at : Nat
  last_activity : Nat
  subscriptions : List String := []
  queue : List Event := []
  metadata : List (String × Bool) := []
  event_count : Nat := 0
  rate_limit_window_start : Nat := 0
  rate_limit_count : Nat := 0
deriving DecidableEq, Repr

/-- Python truthiness of `metadata.get(key)` for truthiness-abstracted
metadata: a missing key (`None`) is falsy. -/
def getTruthy (m : List (String × Bool)) (k : String) : Bool :=
  (m.lookup k).getD false

/-- The registry `ConnectionPool.connections`: a Python dict keyed by `Connection.id`,
modelled as a list of connections with pairwise distinct ids, in insertion
order. -/
abbrev ConnectionPool := List Connection

/-- Errors raised by `ConnectionPool.create_connection`:
`RuntimeError("Maximum connections ... reached")` and
`ValueError("Connection ... already exists")`. -/
inductive CreateError
  | CapacityExceeded
  | DuplicateId
deriving DecidableEq, Repr

/-- The `Connection(...)` literal built inside
`ConnectionPool.create_connection` (lines 227-233): fresh timestamps, empty
subscription set, an empty bounded inbox (`asyncio.Queue(maxsize=100)`), and
`metadata or {}`. -/
def freshConnection (conn_id : String) (metadata : Option (List (String × Bool)))
    (now : Nat) : Connection :=
  { id := conn_id, created_at := now, last_activity := now,
    subscriptions := [], queue := [], metadata := metadata.getD [],
    event_count := 0, rate_limit_window_start := now, rate_limit_count := 0 }

/-- The method `ConnectionPool.create_connection` (lines 215-236): capacity check first,
then the duplicate-id check; on success a fresh connection with an empty
bounded inbox and the given metadata (`metadata or {}`) is inserted.  The
generated-uuid fallback for a missing id is modelled by the caller passing
the fresh id. -/
def create_connection (pool : ConnectionPool) (conn_id : String)
    (metadata : Option (List (String × Bool))) (now : Nat) :
    Except CreateError (Connection × ConnectionPool) :=
  if pool.length ≥ MAX_CONNECTIONS then
    .error .CapacityExceeded
  else if (pool.find? (fun c => c.id == conn_id)).isSome then
    .error .DuplicateId
  else
    .ok (freshConnection conn_id metadata now,
         pool ++ [freshConnection conn_id metadata now])

/-- The method `ConnectionPool.get_connection` (lines 238-244): returns the connection
and touches its `last_activity` in the pool. -/
def get_connection (pool : ConnectionPool) (conn_id : String) (now : Nat) :
    Option Connection × ConnectionPool :=
  match pool.find? (fun c => c.id == conn_id) with
  | none => (none, pool)
  | some c =>
    let c := { c with last_activity := now }
    (some c, pool.map (fun d => if d.id == conn_id then c else d))

/-- The method `ConnectionPool.remove_connection` (lines 246-251): delete the entry if
present, silently do nothing otherwise. -/
def remove_connection (pool : ConnectionPool) (conn_id : String) : ConnectionPool :=
  pool.filter (fun c => c.id != conn_id)

/-- The four derived channel keys of `EventManager._distribute_event`
(lines 377-382), in source order. -/
def channels (e : Event) : List String :=
  [e.target ++ ":" ++ e.type.value, e.target ++ ":*", "*:" ++ e.type.value, "*"]

/-- The method `EventManager._get_channel_subscribers` (lines 395-402): ids of the
connections whose subscription set contains the channel, in pool order. -/
def get_channel_subscribers (pool : ConnectionPool) (channel : String) : List String :=
  (pool.filter (fun c => c.subscriptions.contains channel)).map (fun c => c.id)

/-- The per-connection effect of `EventManager._send_to_connection`
(lines 404-436) on the addressed connection: window reset inside
`is_rate_limited` (lines 194-201), skip when rate limited, otherwise
increment the window counter (line 416) and enqueue.  `queue.put` succeeds
iff the bounded inbox has room; with no concurrent consumer the 1s-timeout
retries (lines 419-433) cannot create room, so a full inbox is a dropped
delivery. -/
def sendStep (c : Connection) (e : Event) (now : Nat) : Connection :=
  let c := if now - c.rate_limit_window_start > RATE_LIMIT_WINDOW then
      { c with rate_limit_window_start := now, rate_limit_count := 0 }
    else c
  if c.rate_limit_count ≥ RATE_LIMIT_EVENTS then c
  else
    let c := { c with rate_limit_count := c.rate_limit_count + 1 }
    if c.queue.length < MAX_QUEUE_SIZE then
      { c with queue := c.queue ++ [e], event_count := c.event_count + 1 }
    else c

/-- The effect of `EventManager._send_to_connection` on the pool: looks the connection up
(touching `last_activity` via `get_connection`, line 406) and applies
`sendStep`; a vanished connection is a silent no-op (line 407-408). -/
def send_to_connection (pool : ConnectionPool) (conn_id : String) (e : Event)
    (now : Nat) : ConnectionPool :=
  pool.map (fun c =>
    if c.id == conn_id then sendStep { c with last_activity := now } e now else c)

/-- The fan-out core of `EventManager._distribute_event` (lines 375-393): one delivery task per
(channel, subscriber) pair — a connection subscribed to several of the four
keys is addressed once per matching key.  Subscription sets are not mutated
by delivery, so collecting all targets up front over the initial pool is
faithful. -/
def distribute_targets (pool : ConnectionPool) (e : Event) : List String :=
  (channels e).flatMap (fun ch => get_channel_subscribers pool ch)

/-- The whole of `EventManager._distribute_event` followed by awaiting every spawned
`_send_to_connection` task. -/
def distribute_event (pool : ConnectionPool) (e : Event) (now : Nat) : ConnectionPool :=
  (distribute_targets pool e).foldl (fun p conn_id => send_to_connection p conn_id e now) pool

/-- The inbox contents of the connection with the given id (empty if the
connection is absent). -/
def queueOf (pool : ConnectionPool) (conn_id : String) : List Event :=
  ((pool.find? (fun c => c.id == conn_id)).map Connection.queue).getD []

/-- Iterating `n` successive `_send_to_connection` deliveries of the same event to the
same connection (each re-fetches the connection, touching `last_activity`,
then applies `sendStep`). -/
def sendIter (e : Event) (now : Nat) : Nat → Connection → Connection
  | 0, c => c
  | n + 1, c => sendIter e now n (sendStep { c with last_activity := now } e now)

/-- Appending to `EventManager.event_history`, a
`deque(maxlen=MAX_EVENT_HISTORY)` (line 316): at capacity the oldest entry
is evicted from the left. -/
def history_append (h : List Event) (e : Event) : List Event :=
  if h.length ≥ MAX_EVENT_HISTORY then h.drop 1 ++ [e] else h ++ [e]

/-- The method `EventManager.emit` (lines 341-373): construct the event (fresh id and
timestamp, default ttl), append it to the bounded history, distribute, and
return it. -/
def emit (hist : List Event) (pool : ConnectionPool) (id : String)
    (type : EventType) (source target action : String)
    (data : List (String × String)) (metadata : Option (List (String × String)))
    (priority : EventPriority) (correlation_id : Option String) (now : Nat) :
    Event × List Event × ConnectionPool :=
  let e := mkEvent id type source target action data (metadata.getD []) now priority
    none correlation_id
  (e, history_append hist e, distribute_event pool e now)

/-- Result dictionary of `EventManager.sync_changes` (broker-owned part). -/
structure SyncResult where
  events : List Event
  next_sync_id : Option String
deriving DecidableEq, Repr

/-- The scan loop of `EventManager.sync_changes` (lines 564-569):
`found` is `found_sync_point`; an event is collected when the sync point has
been passed and the event is not expired; otherwise, if its id equals
`last_sync_id` (never true when that is `None`), the sync point is marked. -/
def sync_loop (last_sync_id : Option String) (now : Nat) :
    Bool → List Event → List Event
  | _, [] => []
  | found, e :: rest =>
    if found && !(e.is_expired now) then e :: sync_loop last_sync_id now found rest
    else if some e.id == last_sync_id then sync_loop last_sync_id now true rest
    else sync_loop last_sync_id now found rest

/-- The method `EventManager.sync_changes` (lines 556-585), broker-owned fields:
scans the history in insertion order; `next_sync_id` is the id of the last
returned event, or `last_sync_id` unchanged if none was returned. -/
def sync_changes (hist : List Event) (last_sync_id : Option String) (now : Nat) :
    SyncResult :=
  let events := sync_loop last_sync_id now last_sync_id.isNone hist
  { events,
    next_sync_id := match events.getLast? with
      | some e => some e.id
      | none => last_sync_id }

/-- Increment the per-(target, type-value) counter of
`_summarize_events`' nested `summary` defaultdict (line 542), flattened to a
pair-keyed association list. -/
def bumpCount (l : List ((String × String) × Nat)) (k : String × String) :
    List ((String × String) × Nat) :=
  match l with
  | [] => [(k, 1)]
  | (k', n) :: rest => if k' = k then (k', n + 1) :: rest else (k', n) :: bumpCount rest k

/-- Add a payload id to the per-target `affected_ids` set of
`_summarize_events` (lines 543-544). -/
def addAffected (l : List (String × List String)) (t i : String) :
    List (String × List String) :=
  match l with
  | [] => [(t, [i])]
  | (t', is') :: rest =>
    if t' = t then (t', if is'.contains i then is' else is' ++ [i]) :: rest
    else (t', is') :: addAffected rest t i

/-- The summary dictionary built by `EventManager._summarize_events`
(lines 536-554). -/
structure EventSummary where
  counts : List ((String × String) × Nat)
  affected : List (String × List String)
  total : Nat
  priority_breakdown : List (String × Nat)
deriving DecidableEq, Repr

/-- The method `EventManager._summarize_events` (lines 536-554): counts grouped by
target then type value, distinct payload `"id"` values per target, total,
and per-priority-name counts over all four levels. -/
def summarize_events (events : List Event) : EventSummary :=
  { counts := events.foldl (fun l e => bumpCount l (e.target, e.type.value)) [],
    affected := events.foldl (fun l e =>
      match e.data.lookup "id" with
      | some i => addAffected l e.target i
      | none => l) [],
    total := events.length,
    priority_breakdown := [EventPriority.low, .normal, .high, .critical].map
      (fun p => (p.name, (events.filter (fun e => e.priority == p)).length)) }

/-- One observation of `conn.queue.get()` inside `wait_for_updates`: either
an event becomes available or the underlying wait raises a non-timeout
exception (line 506). -/
inductive Pull
  | ev (e : Event)
  | err (msg : String)
deriving DecidableEq, Repr

/-- The three result dictionaries of `EventManager.wait_for_updates`
(lines 514-529 and 508-512).  The `timeout` dictionary carries
`events: []` and `summary: {}`; `duration` is in whole seconds. -/
inductive WaitOutcome
  | updates (events : List Event) (summary : EventSummary)
      (last_event_id : Option String) (duration : Nat)
  | timeout (duration : Nat)
  | error (msg : String) (duration : Nat)
deriving DecidableEq, Repr

/-- The collection loop of `wait_for_updates` (lines 486-512).  `pulls` is
the queue-arrival schedule: `(a, p)` means observation `p` is available at
instant `a`; `t` is the current instant.  The loop breaks when the deadline
has passed (line 488), when the bounded wait for the next arrival times out
(lines 504-505) or when no further arrival exists; an arrived event is kept
iff it matches the filter at its arrival instant, and a kept event of
critical priority breaks immediately (lines 497-502); a non-timeout error
aborts with the error outcome, discarding collected events (lines 506-512).
Returns the finish instant and either the collected events or the error. -/
def wait_loop (filters : EventFilter) (deadline : Nat) :
    Nat → List (Nat × Pull) → List Event → Nat × (List Event ⊕ String)
  | t, pulls, acc =>
    if deadline ≤ t then (t, .inl acc)
    else
      match pulls with
      | [] => (deadline, .inl acc)
      | (a, p) :: rest =>
        if deadline < a then (deadline, .inl acc)
        else
          match p with
          | .err m => (a, .inr m)
          | .ev e =>
            if filters.matches a e then
              if e.priority == EventPriority.critical then (a, .inl (acc ++ [e]))
              else wait_loop filters deadline a rest (acc ++ [e])
            else wait_loop filters deadline a rest acc

/-- The clamp `timeout = min(timeout, EventConfig.MAX_TIMEOUT)` (line 459). -/
def effective_timeout (timeout : Nat) : Nat :=
  min timeout MAX_TIMEOUT

/-- Lines 462-464 of `wait_for_updates`: resolve the connection or lazily
create it (with no metadata argument); creation failures propagate. -/
def resolve_connection (pool : ConnectionPool) (connection_id : String)
    (now : Nat) : Except CreateError (Connection × ConnectionPool) :=
  match get_connection pool connection_id now with
  | (some c, pool') => .ok (c, pool')
  | (none, _) => create_connection pool connection_id none now

/-- Subscription channels derived from `targets` (lines 466-472): each
target contributes `"{target}:*"` and `"*:{target}"`; a `None` or empty
(falsy) targets list subscribes to `"*"`. -/
def wait_channels (targets : Option (List String)) : List String :=
  match targets with
  | some ts => if ts.isEmpty then ["*"] else ts.flatMap (fun t => [t ++ ":*", "*:" ++ t])
  | none => ["*"]

/-- Adding `conn.subscriptions.add(channel)` for each channel (lines 474-475):
set insertion, keeping the subscription list duplicate-free. -/
def add_subscriptions (subs : List String) (chs : List String) : List String :=
  chs.foldl (fun s ch => if s.contains ch then s else s ++ [ch]) subs

/-- The method `EventManager.wait_for_updates` (lines 438-534).  Returns the outcome
(or the propagated creation error) and the final pool.  `start_time` is the
call instant; `pulls` is the inbox arrival schedule during the wait.  The
`finally` block (lines 531-534) removes the connection on every exit path of
the collection loop when its metadata marks it temporary. -/
def wait_for_updates (pool : ConnectionPool) (connection_id : String)
    (targets : Option (List String)) (timeout : Nat)
    (filters : Option EventFilter) (since : Option SinceVal)
    (start_time : Nat) (pulls : List (Nat × Pull)) :
    Except CreateError WaitOutcome × ConnectionPool :=
  let timeout := effective_timeout timeout
  match resolve_connection pool connection_id start_time with
  | .error err => (.error err, pool)
  | .ok (conn, pool1) =>
    let conn := { conn with
      subscriptions := add_subscriptions conn.subscriptions (wait_channels targets) }
    let pool2 := pool1.map (fun c => if c.id == connection_id then conn else c)
    let f := filters.getD { since := since }
    let deadline := start_time + timeout
    let (finish, res) := wait_loop f deadline start_time pulls []
    let outcome : WaitOutcome :=
      match res with
      | .inr m => .error m (finish - start_time)
      | .inl events =>
        if events.isEmpty then .timeout (finish - start_time)
        else .updates events (summarize_events events)
          (events.getLast?.map Event.id) (finish - start_time)
    let pool3 := if getTruthy conn.metadata "temporary" then
        remove_connection pool2 connection_id
      else pool2
    (.ok outcome, pool3)

/-! ### Concrete instances used by the claim theorems below -/

/-- A concrete event constructed with an explicit `ttlSeconds` of `0`. -/
def evTtlZero : Event :=
  mkEvent "ez" .create "mcp" "note" "create_note" [] [] 10 .normal (some 0) none

/-- A concrete event with an explicit ttl of 2 seconds. -/
def evTtlTwo : Event :=
  mkEvent "et" .create "mcp" "note" "create_note" [] [] 0 .normal (some 2) none

/-- A concrete pool of 100 connections (the system cap). -/
def poolCap : ConnectionPool :=
  (List.range 100).map (fun i => { id := toString i, created_at := 0, last_activity := 0 })

/-- A concrete event with ttl 1. -/
def evShortTtl : Event :=
  mkEvent "es" .create "mcp" "note" "create_note" [] [] 0 .normal (some 1) none

/-- The default `EventFilter()` (every criterion absent). -/
def filterDefault : EventFilter := {}

/-- A concrete one-connection pool. -/
def poolOne : ConnectionPool := [{ id := "c1", created_at := 0, last_activity := 0 }]

/-- The i-th event of the history-overflow scenario: 1001 events with
pairwise distinct ids (event #(i+1) carries an id of i+1 copies of `a`), all
emitted at instant 0 with the default ttl. -/
def histEvent (i : Nat) : Event :=
  mkEvent (String.mk (List.replicate (i + 1) 'a')) .create "mcp" "note"
    "create_note" [] [] 0 .normal none none

/-- The history after appending events #1..#1001 (indices 0..1000) into the
empty 1000-capacity ring. -/
def histAfter1001 : List Event :=
  (List.range 1001).foldl (fun h i => history_append h (histEvent i)) []

/-- A registered plain connection. -/
def connW4 : Connection := { id := "c4", created_at := 0, last_activity := 0 }

/-- A lower-priority matching event. -/
def evLowW : Event := mkEvent "l1" .update "ui" "note" "update_note" [] [] 0 .normal none none

/-- A critical matching event created at instant 1. -/
def evCritW : Event := mkEvent "cr" .error "mcp" "note" "boom" [] [] 1 .critical none none

/-- A concrete connection flagged temporary. -/
def connTemp : Connection :=
  { id := "ct", created_at := 0, last_activity := 0,
    metadata := [("temporary", true)] }

/-! ### Claim C3: event expiry -/

/-- C3 counterexample: for the event `evTtlZero` built with the non-negative
explicit ttl `0`, five seconds after creation `now - createdAt > ttlSeconds`
holds, yet `is_expired()` returns `false` — `if not self.ttl` treats a zero
ttl as "no ttl".  So `is_expired` is not equivalent to
`now - createdAt > ttlSeconds` for every non-negative explicit ttl. -/
theorem C3_counterexample :
    evTtlZero.is_expired (evTtlZero.timestamp + 5) = false ∧
    evTtlZero.timestamp + 5 - evTtlZero.timestamp > evTtlZero.ttl := by
  decide

/-- C3 amended: for every event whose (post-construction) ttl is nonzero —
in particular one with the default ttl 3600 — `is_expired` at instant `now`
is `true` iff `now - createdAt > ttlSeconds`; an event whose explicit ttl is
`0` is never expired; every event is unexpired at its creation instant; and
an event constructed with an absent ttl gets `EVENT_TTL = 3600`. -/
theorem C3_amended (e : Event) (now : Nat) :
    (e.ttl ≠ 0 → (e.is_expired now = true ↔ now - e.timestamp > e.ttl)) ∧
    (e.ttl = 0 → e.is_expired now = false) ∧
    e.is_expired e.timestamp = false ∧
    (∀ id ty s t a d m ts p cid,
      (mkEvent id ty s t a d m ts p none cid).ttl = EVENT_TTL) := by
  refine ⟨fun h => ?_, fun h => ?_, ?_, fun id ty s t a d m ts p cid => rfl⟩
  · simp [Event.is_expired, h]
  · simp [Event.is_expired, h]
  · by_cases h : e.ttl = 0 <;> simp [Event.is_expired, h]

/-- Witness for the amended C3 at a concrete event and instant. -/
theorem C3_amended_witness : evTtlTwo.is_expired 5 = true :=
  ((C3_amended evTtlTwo 5).1 (by decide)).mpr (by decide)

/-! ### Claim C6: connection creation -/

/-- C6: `create_connection` fails with `CapacityExceeded` whenever the pool
holds at least `MAX_CONNECTIONS = 100` live connections (so a 101st create at
the cap always fails), fails with `DuplicateId` below the cap when the id is
already present, and otherwise appends a fresh connection with an empty
inbox, whose capacity bound is `MAX_QUEUE_SIZE = 100`. -/
theorem C6_create_connection (pool : ConnectionPool) (conn_id : String)
    (metadata : Option (List (String × Bool))) (now : Nat) :
    (pool.length ≥ MAX_CONNECTIONS →
      create_connection pool conn_id metadata now = .error .CapacityExceeded) ∧
    (pool.length < MAX_CONNECTIONS →
      (pool.find? (fun c => c.id == conn_id)).isSome →
      create_connection pool conn_id metadata now = .error .DuplicateId) ∧
    (pool.length < MAX_CONNECTIONS →
      pool.find? (fun c => c.id == conn_id) = none →
      ∃ conn, create_connection pool conn_id metadata now = .ok (conn, pool ++ [conn]) ∧
        conn.id = conn_id ∧ conn.queue = [] ∧ conn.metadata = metadata.getD []) ∧
    MAX_CONNECTIONS = 100 ∧ MAX_QUEUE_SIZE = 100 := by
  refine ⟨fun h => ?_, fun h1 h2 => ?_, fun h1 h2 => ?_, rfl, rfl⟩
  · simp [create_connection, h]
  · simp [create_connection, h2, show ¬pool.length ≥ MAX_CONNECTIONS from by omega]
  · refine ⟨freshConnection conn_id metadata now, ?_, rfl, rfl, rfl⟩
    simp [create_connection, h2, show ¬pool.length ≥ MAX_CONNECTIONS from by omega]

/-- Witness for the C6 theorem: a create at the 100-connection cap
fails with `CapacityExceeded`, a duplicate id below the cap fails with
`DuplicateId`, and a fresh create below the cap succeeds. -/
theorem C6_create_connection_witness :
    create_connection poolCap "fresh" none 0 = .error .CapacityExceeded ∧
    create_connection [{ id := "c1", created_at := 0, last_activity := 0 }] "c1" none 0 =
      .error .DuplicateId ∧
    ∃ conn, create_connection [] "c1" none 0 = .ok (conn, [] ++ [conn]) := by
  refine ⟨(C6_create_connection poolCap "fresh" none 0).1 (by decide),
    (C6_create_connection _ "c1" none 0).2.1 (by decide) (by decide), ?_⟩
  obtain ⟨conn, h, -⟩ :=
    (C6_create_connection [] "c1" none 0).2.2.1 (by decide) (by decide)
  exact ⟨conn, h⟩

/-! ### Claim C8: purity of filter matching -/

/-- C8 counterexample: two evaluations of `matches` on the same event and
the same (default) filter return different results at different instants —
at the creation instant the event matches, two seconds later it is expired
and no longer matches.  `matches` reads the wall clock through
`Event.is_expired`, so it is not a function of the pair (event, filter). -/
theorem C8_counterexample :
    filterDefault.matches 0 evShortTtl = true ∧
    filterDefault.matches 2 evShortTtl = false := by
  decide

/-- C8 amended: `matches` is a pure function of (event, filter, current
time): it mutates nothing (it is a function), and two evaluations agree
whenever the event's expiry status agrees — in particular whenever
`exclude_expired` is off, evaluation time is irrelevant. -/
theorem C8_amended (f : EventFilter) (e : Event) (t t' : Nat)
    (h : e.is_expired t = e.is_expired t') :
    f.matches t e = f.matches t' e := by
  unfold EventFilter.matches
  rw [h]

/-- Witness for the amended C8 at a concrete filter, event and pair of
instants with equal expiry status. -/
theorem C8_amended_witness :
    filterDefault.matches 0 evTtlTwo = filterDefault.matches 1 evTtlTwo :=
  C8_amended filterDefault evTtlTwo 0 1 (by decide)

/-! ### Claim C9: idempotence of connection removal -/

/-- C9: removing a connection id twice equals removing it once (the second
call is a no-op and never errors — `remove_connection` is total), and
removing an absent id leaves the pool unchanged. -/
theorem C9_remove_idempotent (pool : ConnectionPool) (conn_id : String) :
    remove_connection (remove_connection pool conn_id) conn_id =
      remove_connection pool conn_id ∧
    (conn_id ∉ pool.map Connection.id → remove_connection pool conn_id = pool) := by
  constructor
  · simp [remove_connection, List.filter_filter]
  · intro h
    rw [remove_connection, List.filter_eq_self]
    intro c hc
    simp only [bne_iff_ne, ne_eq]
    exact fun he => h (he ▸ List.mem_map_of_mem Connection.id hc)

/-- Witness for the C9 theorem on a concrete pool: double removal of
a present id, and removal of an absent id. -/
theorem C9_remove_idempotent_witness :
    remove_connection (remove_connection poolOne "c1") "c1" =
      remove_connection poolOne "c1" ∧
    remove_connection poolOne "missing" = poolOne :=
  ⟨(C9_remove_idempotent poolOne "c1").1,
   (C9_remove_idempotent poolOne "missing").2 (by decide)⟩

/-! ### Claim C2: catch-up sync against the bounded history -/

/-- Once the sync point has been passed (`found_sync_point` is true), the
scan collects exactly the non-expired remaining events, in order. -/
theorem sync_loop_found (lsi : Option String) (now : Nat) (l : List Event) :
    sync_loop lsi now true l = l.filter (fun e => !(e.is_expired now)) := by
  induction l with
  | nil => rfl
  | cons e rest ih =>
    by_cases h : e.is_expired now
    · by_cases h2 : (some e.id == lsi) <;>
        simp [sync_loop, h, h2, ih, List.filter_cons]
    · simp [sync_loop, h, ih, List.filter_cons]

/-- Events before the sync point whose ids differ from `last_sync_id` are
skipped without being collected. -/
theorem sync_loop_skip (i : String) (now : Nat) (pre : List Event)
    (h : ∀ e ∈ pre, e.id ≠ i) (l : List Event) :
    sync_loop (some i) now false (pre ++ l) = sync_loop (some i) now false l := by
  induction pre with
  | nil => rfl
  | cons e rest ih =>
    have he : (some e.id == some i) = false := by
      simpa using h e (by simp)
    simpa [sync_loop, he] using ih (fun x hx => h x (by simp [hx]))

/-- When `last_sync_id` matches no event id in the history, the scan
collects nothing. -/
theorem sync_loop_not_found (i : String) (now : Nat) (l : List Event)
    (h : ∀ e ∈ l, e.id ≠ i) :
    sync_loop (some i) now false l = [] := by
  have := sync_loop_skip i now l h []
  simpa using this

/-- As long as the bounded history is not overfull, appends accumulate. -/
theorem foldl_history_append (xs : List Event) :
    ∀ h : List Event, h.length + xs.length ≤ MAX_EVENT_HISTORY →
      xs.foldl history_append h = h ++ xs := by
  induction xs with
  | nil => intro h _; simp
  | cons x rest ih =>
    intro h hle
    simp only [List.length_cons] at hle
    have h1 : ¬h.length ≥ MAX_EVENT_HISTORY := by omega
    have h2 : (h ++ [x]).length + rest.length ≤ MAX_EVENT_HISTORY := by
      simp only [List.length_append, List.length_cons, List.length_nil]; omega
    rw [List.foldl_cons, show history_append h x = h ++ [x] from by
      rw [history_append, if_neg h1], ih (h ++ [x]) h2, List.append_assoc,
      List.singleton_append]

/-- Distinct indices give `histEvent`s with distinct ids. -/
theorem histEvent_id_inj (i j : Nat) (h : (histEvent i).id = (histEvent j).id) :
    i = j := by
  have hl : List.replicate (i + 1) 'a' = List.replicate (j + 1) 'a' := by
    simpa [histEvent, mkEvent] using congrArg String.data h
  have := congrArg List.length hl
  simpa using this

/-- The 1001st append evicts event #1: the ring holds the mapped range with
its head dropped, plus the newest event. -/
theorem histAfter1001_eq :
    histAfter1001 =
      ((List.range 1000).map histEvent).drop 1 ++ [histEvent 1000] := by
  rw [histAfter1001, List.range_succ, List.foldl_append]
  rw [show (List.range 1000).foldl (fun h i => history_append h (histEvent i)) [] =
      ((List.range 1000).map histEvent).foldl history_append [] from
    (List.foldl_map histEvent history_append (List.range 1000) []).symm]
  rw [foldl_history_append _ _ (by simp [MAX_EVENT_HISTORY])]
  simp only [List.nil_append, List.foldl_cons, List.foldl_nil]
  rw [history_append, if_pos (by simp [MAX_EVENT_HISTORY])]

/-- After the overflow, the ring holds exactly 1000 events. -/
theorem histAfter1001_length : histAfter1001.length = MAX_EVENT_HISTORY := by
  rw [histAfter1001_eq]
  simp [MAX_EVENT_HISTORY]

/-- Event #1's id no longer occurs anywhere in the overflowed history. -/
theorem histAfter1001_id_ne : ∀ e ∈ histAfter1001, e.id ≠ (histEvent 0).id := by
  rw [histAfter1001_eq]
  intro e he
  rcases List.mem_append.1 he with h | h
  · rw [List.range_succ_eq_map, List.map_cons, List.map_map, List.drop_succ_cons,
      List.drop_zero] at h
    obtain ⟨j, -, hj⟩ := List.mem_map.1 h
    intro hid
    rw [← hj] at hid
    exact Nat.succ_ne_zero j (histEvent_id_inj _ _ hid)
  · intro hid
    rw [List.mem_singleton.1 h] at hid
    exact Nat.succ_ne_zero 999 (by simpa using histEvent_id_inj _ _ hid)

/-- C2 counterexample: after emitting 1001 events into the 1000-capacity
history, `syncChanges` with `lastSyncId` equal to event #1's id returns no
events at all (the sync point was evicted, so it is never found and
everything is skipped), with `nextSyncId` unchanged — not events #2..#1001
as the claim states (the history does hold 1000 events). -/
theorem C2_counterexample :
    (sync_changes histAfter1001 (some (histEvent 0).id) 0).events = [] ∧
    (sync_changes histAfter1001 (some (histEvent 0).id) 0).next_sync_id =
      some (histEvent 0).id ∧
    histAfter1001.length = 1000 := by
  have h := sync_loop_not_found (histEvent 0).id 0 histAfter1001 histAfter1001_id_ne
  refine ⟨?_, ?_, histAfter1001_length⟩ <;> simp [sync_changes, h]

/-- C2 amended: when `lastSyncId` matches no id left in the history (e.g.
after the matching event was evicted by the 1000-capacity ring), the call
returns no events and `nextSyncId = lastSyncId` unchanged; when the history
still contains the event with id `lastSyncId` (all earlier events having
different ids), the call skips everything up to and including it, returns
exactly the non-expired events strictly after it in insertion order, and
`nextSyncId` is the id of the last returned event (or `lastSyncId` if none
is returned). -/
theorem C2_amended (now : Nat) :
    (∀ (hist : List Event) (i : String), (∀ e ∈ hist, e.id ≠ i) →
      sync_changes hist (some i) now = { events := [], next_sync_id := some i }) ∧
    (∀ (pre post : List Event) (m : Event), (∀ e ∈ pre, e.id ≠ m.id) →
      sync_changes (pre ++ m :: post) (some m.id) now =
        { events := post.filter (fun e => !(e.is_expired now)),
          next_sync_id :=
            match (post.filter (fun e => !(e.is_expired now))).getLast? with
            | some e => some e.id
            | none => some m.id }) := by
  constructor
  · intro hist i h
    simp [sync_changes, sync_loop_not_found i now hist h]
  · intro pre post m h
    have hm : sync_loop (some m.id) now false (pre ++ m :: post) =
        post.filter (fun e => !(e.is_expired now)) := by
      rw [sync_loop_skip m.id now pre h (m :: post)]
      simp [sync_loop, sync_loop_found]
    simp [sync_changes, hm]

/-- Witness for the amended C2: a three-event history synced from the first
event's id returns exactly the later two events; an id absent from the
history returns nothing. -/
theorem C2_amended_witness :
    (sync_changes [histEvent 0, histEvent 1, histEvent 2]
        (some (histEvent 0).id) 0).events = [histEvent 1, histEvent 2] ∧
    sync_changes [histEvent 1] (some "zz") 0 =
      { events := [], next_sync_id := some "zz" } := by
  constructor
  · have h := (C2_amended 0).2 [] [histEvent 1, histEvent 2] (histEvent 0)
      (by decide)
    rw [List.nil_append] at h
    rw [h]
    decide
  · exact (C2_amended 0).1 [histEvent 1] "zz" (by decide)

/-! ### Claim C1: fan-out distribution -/

/-- Unfolding `get_channel_subscribers` over a pool head. -/
theorem get_channel_subscribers_cons (d : Connection) (rest : ConnectionPool)
    (ch : String) :
    get_channel_subscribers (d :: rest) ch =
      if d.subscriptions.contains ch then d.id :: get_channel_subscribers rest ch
      else get_channel_subscribers rest ch := by
  by_cases h : ch ∈ d.subscriptions <;>
    simp [get_channel_subscribers, List.filter_cons, h]

/-- Every subscriber id returned for a channel is the id of some pool
member. -/
theorem mem_subscribers_mem_ids (pool : ConnectionPool) (ch x : String)
    (h : x ∈ get_channel_subscribers pool ch) : x ∈ pool.map Connection.id := by
  rw [get_channel_subscribers] at h
  obtain ⟨c, hc, rfl⟩ := List.mem_map.1 h
  exact List.mem_map_of_mem Connection.id (List.mem_of_mem_filter hc)

/-- In a pool with pairwise distinct ids, a channel's subscriber list holds
a given member's id once if the member subscribes to the channel, else not
at all. -/
theorem count_subscribers (pool : ConnectionPool) (c : Connection) (ch : String)
    (hnd : (pool.map Connection.id).Nodup) (hc : c ∈ pool) :
    (get_channel_subscribers pool ch).count c.id =
      if c.subscriptions.contains ch then 1 else 0 := by
  induction pool with
  | nil => cases hc
  | cons d rest ih =>
    rw [List.map_cons, List.nodup_cons] at hnd
    rw [get_channel_subscribers_cons]
    rcases List.mem_cons.1 hc with rfl | hmem
    · have hz : (get_channel_subscribers rest ch).count c.id = 0 :=
        List.count_eq_zero.2 fun hm =>
          hnd.1 (mem_subscribers_mem_ids rest ch c.id hm)
      by_cases h : ch ∈ c.subscriptions <;>
        simp [h, hz, List.count_cons_self]
    · have hne : c.id ≠ d.id := fun hh =>
        hnd.1 (hh ▸ List.mem_map_of_mem Connection.id hmem)
      have hrec := ih hnd.2 hmem
      by_cases h : ch ∈ d.subscriptions <;>
        simp [h, List.count_cons, hne, Ne.symm hne, hrec]

/-- The number of delivery tasks `_distribute_event` spawns for a given
connection equals the number of the event's four derived channel keys (with
multiplicity) in the connection's subscription set. -/
theorem count_distribute_targets (pool : ConnectionPool) (e : Event)
    (c : Connection) (hnd : (pool.map Connection.id).Nodup) (hc : c ∈ pool) :
    (distribute_targets pool e).count c.id =
      ((channels e).filter (fun ch => c.subscriptions.contains ch)).length := by
  rw [distribute_targets]
  induction channels e with
  | nil => simp
  | cons ch rest ih =>
    rw [List.flatMap_cons, List.count_append,
      count_subscribers pool c ch hnd hc, List.filter_cons]
    by_cases h : ch ∈ c.subscriptions <;> (simp [h, ih]; try omega)

/-- The update `sendStep` never changes the connection's id. -/
theorem sendStep_id (c : Connection) (e : Event) (now : Nat) :
    (sendStep c e now).id = c.id := by
  simp only [sendStep]
  split <;> split <;> first | rfl | (split <;> rfl)

/-- When the rate window has not elapsed, the counter is under the limit and
the inbox has room, one delivery appends the event and bumps the counters. -/
theorem sendStep_spec (c : Connection) (e : Event) (now : Nat)
    (h1 : now - c.rate_limit_window_start ≤ RATE_LIMIT_WINDOW)
    (h2 : c.rate_limit_count < RATE_LIMIT_EVENTS)
    (h3 : c.queue.length < MAX_QUEUE_SIZE) :
    sendStep c e now =
      { c with rate_limit_count := c.rate_limit_count + 1,
               queue := c.queue ++ [e],
               event_count := c.event_count + 1 } := by
  have hreset : (if now - c.rate_limit_window_start > RATE_LIMIT_WINDOW then
      { c with rate_limit_window_start := now, rate_limit_count := 0 }
    else c) = c := if_neg (by omega)
  simp only [sendStep, hreset]
  rw [if_neg (by omega), if_pos h3]

/-- The per-connection pool update of `_send_to_connection` keeps ids. -/
theorem send_update_id (cid : String) (e : Event) (now : Nat) (c : Connection) :
    ((if c.id == cid then sendStep { c with last_activity := now } e now
      else c).id) = c.id := by
  by_cases h : (c.id == cid) = true <;> simp [h, sendStep_id]

/-- The call `_send_to_connection` changes only the addressed pool entry, by one
`sendStep` on the freshly touched connection. -/
theorem find?_send_to_connection (pool : ConnectionPool) (cid x : String)
    (e : Event) (now : Nat) :
    (send_to_connection pool cid e now).find? (fun c => c.id == x) =
      (pool.find? (fun c => c.id == x)).map
        (fun c => if c.id == cid then sendStep { c with last_activity := now } e now
          else c) := by
  induction pool with
  | nil => rfl
  | cons d rest ih =>
    simp only [send_to_connection, List.map_cons] at ih ⊢
    rw [List.find?_cons, List.find?_cons,
      show ((if d.id == cid then sendStep { d with last_activity := now } e now
        else d).id == x) = (d.id == x) from by rw [send_update_id]]
    cases h : d.id == x
    · exact ih
    · rfl

/-- Folding the spawned delivery tasks over the target list applies, to the
entry with a given id, one `sendStep` per occurrence of that id among the
targets. -/
theorem find?_foldl_send (e : Event) (now : Nat) (ts : List String) :
    ∀ (pool : ConnectionPool) (x : String),
      ((ts.foldl (fun p cid => send_to_connection p cid e now) pool).find?
          (fun c => c.id == x)) =
        (pool.find? (fun c => c.id == x)).map (sendIter e now (ts.count x)) := by
  induction ts with
  | nil =>
    intro pool x
    cases h : pool.find? (fun c => c.id == x) <;> simp [h, sendIter]
  | cons t rest ih =>
    intro pool x
    rw [List.foldl_cons, ih (send_to_connection pool t e now) x,
      find?_send_to_connection, Option.map_map]
    cases h : pool.find? (fun c => c.id == x) with
    | none => rfl
    | some c =>
      have hx : (c.id == x) = true := by
        have := List.find?_some h
        simpa using this
      have hx' : c.id = x := by simpa using hx
      simp only [Option.map_some', Function.comp_apply]
      by_cases hxt : x = t
      · rw [show (c.id == t) = true from by rw [hx', hxt, beq_self_eq_true]]
        rw [show (t :: rest).count x = rest.count x + 1 from by
          rw [List.count_cons, if_pos (by rw [hxt]; exact beq_self_eq_true t)]]
        rfl
      · rw [show (c.id == t) = false from by
          rw [hx']; exact beq_eq_false_iff_ne.2 hxt]
        rw [show (t :: rest).count x = rest.count x from by
          rw [List.count_cons,
            if_neg (by simpa using fun hh => hxt hh.symm), Nat.add_zero]]
        rfl

/-- Repeated in-window deliveries with room and budget append one copy of
the event per delivery. -/
theorem sendIter_queue (e : Event) (now : Nat) :
    ∀ (n : Nat) (c : Connection),
      now - c.rate_limit_window_start ≤ RATE_LIMIT_WINDOW →
      c.rate_limit_count + n ≤ RATE_LIMIT_EVENTS →
      c.queue.length + n ≤ MAX_QUEUE_SIZE →
      (sendIter e now n c).queue = c.queue ++ List.replicate n e := by
  intro n
  induction n with
  | zero => intro c _ _ _; simp [sendIter]
  | succ n ih =>
    intro c h1 h2 h3
    rw [sendIter, sendStep_spec _ _ _
      (by show now - c.rate_limit_window_start ≤ RATE_LIMIT_WINDOW; exact h1)
      (by show c.rate_limit_count < RATE_LIMIT_EVENTS; omega)
      (by show c.queue.length < MAX_QUEUE_SIZE; omega)]
    rw [ih _
      (by show now - c.rate_limit_window_start ≤ RATE_LIMIT_WINDOW; exact h1)
      (by show c.rate_limit_count + 1 + n ≤ RATE_LIMIT_EVENTS; omega)
      (by show (c.queue ++ [e]).length + n ≤ MAX_QUEUE_SIZE; simp; omega)]
    simp [List.replicate_succ, List.append_assoc]

/-- In a pool with pairwise distinct ids, looking a member's id up finds
that member. -/
theorem find?_nodup_self (pool : ConnectionPool) (c : Connection)
    (hnd : (pool.map Connection.id).Nodup) (hc : c ∈ pool) :
    pool.find? (fun d => d.id == c.id) = some c := by
  induction pool with
  | nil => cases hc
  | cons d rest ih =>
    rw [List.map_cons, List.nodup_cons] at hnd
    rcases List.mem_cons.1 hc with rfl | hmem
    · rw [List.find?_cons, beq_self_eq_true]
    · have hne : (d.id == c.id) = false := by
        simp only [beq_eq_false_iff_ne, ne_eq]
        exact fun hh => hnd.1 (hh ▸ List.mem_map_of_mem Connection.id hmem)
      rw [List.find?_cons, hne]
      exact ih hnd.2 hmem

/-- C1 counterexample: a single connection subscribed to two of the four
derived channel keys (`"note:create"` and `"*"`) receives the emitted event
twice in its inbox, not once — `_distribute_event` spawns one delivery task
per (channel, subscriber) pair and never deduplicates subscriber ids across
the four keys. -/
theorem C1_counterexample :
    ((channels (mkEvent "ed" .create "mcp" "note" "create_note" [] [] 0
        .normal none none)).filter
      (fun ch => ["note:create", "*"].contains ch)).length = 2 ∧
    queueOf (distribute_event
        [{ id := "c1", created_at := 0, last_activity := 0,
           subscriptions := ["note:create", "*"] }]
        (mkEvent "ed" .create "mcp" "note" "create_note" [] [] 0 .normal none none)
        0) "c1" =
      [mkEvent "ed" .create "mcp" "note" "create_note" [] [] 0 .normal none none,
       mkEvent "ed" .create "mcp" "note" "create_note" [] [] 0 .normal none none] := by
  decide

/-- C1 amended: in a registry with pairwise distinct connection ids, for
every registered connection, distribution of an emitted event enqueues the
event into that connection's inbox once per derived channel key (with
multiplicity) contained in the connection's subscription set — `k` copies
when `k` keys match, not one — provided the deliveries stay inside the
connection's current rate window and the inbox and rate budgets have room
for them. -/
theorem C1_amended (pool : ConnectionPool) (e : Event) (now : Nat)
    (c : Connection) (k : Nat)
    (hnd : (pool.map Connection.id).Nodup) (hc : c ∈ pool)
    (hk : k = ((channels e).filter (fun ch => c.subscriptions.contains ch)).length)
    (h1 : now - c.rate_limit_window_start ≤ RATE_LIMIT_WINDOW)
    (h2 : c.rate_limit_count + k ≤ RATE_LIMIT_EVENTS)
    (h3 : c.queue.length + k ≤ MAX_QUEUE_SIZE) :
    queueOf (distribute_event pool e now) c.id = c.queue ++ List.replicate k e := by
  rw [queueOf, distribute_event, find?_foldl_send, find?_nodup_self pool c hnd hc,
    count_distribute_targets pool e c hnd hc, ← hk]
  show (sendIter e now k c).queue = c.queue ++ List.replicate k e
  exact sendIter_queue e now k c h1 h2 h3

/-- Witness for the amended C1 on a concrete two-key subscriber. -/
theorem C1_amended_witness :
    queueOf (distribute_event
        [{ id := "c2", created_at := 0, last_activity := 0,
           subscriptions := ["note:*", "*"] }]
        (mkEvent "ew" .create "mcp" "note" "create_note" [] [] 0 .normal none none)
        0) "c2" =
      [] ++ List.replicate 2
        (mkEvent "ew" .create "mcp" "note" "create_note" [] [] 0 .normal none none) :=
  C1_amended
    [{ id := "c2", created_at := 0, last_activity := 0,
       subscriptions := ["note:*", "*"] }]
    (mkEvent "ew" .create "mcp" "note" "create_note" [] [] 0 .normal none none) 0
    { id := "c2", created_at := 0, last_activity := 0,
      subscriptions := ["note:*", "*"] } 2
    (by decide) (by decide) (by decide) (by decide) (by decide) (by decide)

/-! ### Claim C4: critical-priority early return -/

/-- The collection loop, run over a schedule whose earlier arrivals are
lower-priority (never both matching and critical) events before the
deadline, stops exactly at the first matching critical event: it returns at
that event's arrival instant, with all earlier matching events collected and
the critical event last, ignoring the rest of the schedule. -/
theorem wait_loop_critical (f : EventFilter) (deadline a : Nat) (ce : Event)
    (post : List (Nat × Pull))
    (hca : f.matches a ce = true) (hcp : ce.priority = .critical) :
    ∀ (pre : List (Nat × Event)) (t0 : Nat) (acc : List Event),
      (∀ te ∈ pre, te.1 < deadline) →
      (∀ te ∈ pre, ¬(f.matches te.1 te.2 = true ∧ te.2.priority = .critical)) →
      t0 < deadline → a ≤ deadline →
      wait_loop f deadline t0
          (pre.map (fun te => (te.1, Pull.ev te.2)) ++ (a, Pull.ev ce) :: post) acc =
        (a, .inl (acc ++ (pre.filter (fun te => f.matches te.1 te.2)).map Prod.snd
          ++ [ce])) := by
  intro pre
  induction pre with
  | nil =>
    intro t0 acc _ _ ht ha
    rw [List.map_nil, List.nil_append, wait_loop,
      if_neg (Nat.not_le.2 ht), if_neg (Nat.not_lt.2 ha), if_pos hca,
      if_pos (show (ce.priority == EventPriority.critical) = true from by
        rw [hcp]; rfl)]
    simp
  | cons te pre ih =>
    intro t0 acc h1 h2 ht ha
    obtain ⟨t1, e1⟩ := te
    have ht1 : t1 < deadline := h1 (t1, e1) (by simp)
    rw [List.map_cons, List.cons_append, wait_loop,
      if_neg (Nat.not_le.2 ht), if_neg (Nat.not_lt.2 (Nat.le_of_lt ht1))]
    by_cases hm : f.matches t1 e1 = true
    · have hcr : (e1.priority == EventPriority.critical) = false := by
        have := h2 (t1, e1) (by simp)
        simp only [beq_eq_false_iff_ne, ne_eq]
        exact fun hh => this ⟨hm, hh⟩
      rw [if_pos hm, hcr]
      rw [ih t1 (acc ++ [e1]) (fun x hx => h1 x (by simp [hx]))
        (fun x hx => h2 x (by simp [hx])) ht1 ha]
      simp [List.filter_cons, hm]
    · rw [if_neg hm]
      rw [ih t1 acc (fun x hx => h1 x (by simp [hx]))
        (fun x hx => h2 x (by simp [hx])) ht1 ha]
      simp [List.filter_cons, hm]

/-- C4: during a `waitForUpdates` call (on a registered connection, with an
explicit filter, a positive effective timeout, and an inbox schedule whose
arrivals before the first matching critical event are in-deadline events
that are never both matching and critical), as soon as the pulled matching
critical event is collected the call stops immediately and returns status
`"updates"` whose events are all matching events collected so far up to and
including that critical event, whose `last_event_id` is the critical event's
id, and whose duration is the critical arrival instant minus the start
instant — not the full remaining deadline. -/
theorem C4_critical_early_return (pool : ConnectionPool) (connection_id : String)
    (targets : Option (List String)) (timeout : Nat) (f : EventFilter)
    (t0 : Nat) (pre : List (Nat × Event)) (a : Nat) (ce : Event)
    (post : List (Nat × Pull))
    (hconn : (pool.find? (fun c => c.id == connection_id)).isSome)
    (hpre_t : ∀ te ∈ pre, te.1 < t0 + effective_timeout timeout)
    (hpre_nc : ∀ te ∈ pre, ¬(f.matches te.1 te.2 = true ∧ te.2.priority = .critical))
    (ht : t0 < t0 + effective_timeout timeout)
    (ha : a ≤ t0 + effective_timeout timeout)
    (hm : f.matches a ce = true) (hc : ce.priority = .critical) :
    (wait_for_updates pool connection_id targets timeout (some f) none t0
        (pre.map (fun te => (te.1, Pull.ev te.2)) ++ (a, Pull.ev ce) :: post)).fst =
      .ok (.updates
        ((pre.filter (fun te => f.matches te.1 te.2)).map Prod.snd ++ [ce])
        (summarize_events
          ((pre.filter (fun te => f.matches te.1 te.2)).map Prod.snd ++ [ce]))
        (some ce.id) (a - t0)) := by
  obtain ⟨c, hfind⟩ := Option.isSome_iff_exists.1 hconn
  have hwl := wait_loop_critical f (t0 + effective_timeout timeout) a ce post
    hm hc pre t0 [] hpre_t hpre_nc ht ha
  have hne : ((pre.filter (fun te => f.matches te.1 te.2)).map Prod.snd
      ++ [ce]).isEmpty = false := by
    rw [List.isEmpty_eq_false_iff_exists_mem]
    exact ⟨ce, by simp⟩
  simp only [wait_for_updates, resolve_connection, get_connection, hfind,
    Option.getD_some, hwl, hne, List.nil_append, Bool.false_eq_true, if_false,
    List.getLast?_concat, Option.map_some']

/-- Witness for the C4 theorem on a concrete schedule. -/
theorem C4_critical_early_return_witness :
    (wait_for_updates [connW4] "c4" none 30 (some filterDefault) none 0
        ([((1 : Nat), evLowW)].map (fun te => (te.1, Pull.ev te.2)) ++
          (2, Pull.ev evCritW) :: [(9, Pull.ev evLowW)])).fst =
      .ok (.updates
        (([((1 : Nat), evLowW)].filter
            (fun te => filterDefault.matches te.1 te.2)).map Prod.snd ++ [evCritW])
        (summarize_events
          (([((1 : Nat), evLowW)].filter
              (fun te => filterDefault.matches te.1 te.2)).map Prod.snd ++ [evCritW]))
        (some evCritW.id) (2 - 0)) :=
  C4_critical_early_return [connW4] "c4" none 30 filterDefault 0
    [((1 : Nat), evLowW)] 2 evCritW [(9, Pull.ev evLowW)]
    (by decide) (by decide) (by decide) (by decide) (by decide) (by decide) rfl

/-! ### Claim C5: long-poll outcome trichotomy and timeout clamp -/

/-- C5 counterexample: a `waitForUpdates` call whose connection id is
unknown while the registry already holds 100 live connections does not
terminate in any of the three structured outcomes — the lazy
`create_connection` raises `CapacityExceeded`, which propagates out of the
call. -/
theorem C5_counterexample :
    (wait_for_updates poolCap "fresh" none 30 none none 0 []).fst =
      .error .CapacityExceeded := by
  decide

/-- C5 amended: every `waitForUpdates` call either propagates a connection
creation error (possible only when the connection id is not registered), or
terminates in exactly one of the three structured outcomes: `updates` with a
nonempty event list, its summary, and `last_event_id` the id of the last
collected event; `timeout` when nothing was collected; or `error` when the
underlying wait itself errored.  The effective timeout is clamped to at most
`MAX_TIMEOUT = 300` seconds. -/
theorem C5_amended (pool : ConnectionPool) (connection_id : String)
    (targets : Option (List String)) (timeout : Nat)
    (filters : Option EventFilter) (since : Option SinceVal)
    (t0 : Nat) (pulls : List (Nat × Pull)) :
    ((∃ err, (wait_for_updates pool connection_id targets timeout filters since
        t0 pulls).fst = .error err ∧
        pool.find? (fun c => c.id == connection_id) = none) ∨
      (∃ evs dur, (wait_for_updates pool connection_id targets timeout filters since
        t0 pulls).fst = .ok (.updates evs (summarize_events evs)
          (evs.getLast?.map Event.id) dur) ∧ evs ≠ []) ∨
      (∃ dur, (wait_for_updates pool connection_id targets timeout filters since
        t0 pulls).fst = .ok (.timeout dur)) ∨
      (∃ m dur, (wait_for_updates pool connection_id targets timeout filters since
        t0 pulls).fst = .ok (.error m dur))) ∧
    effective_timeout timeout ≤ MAX_TIMEOUT ∧ MAX_TIMEOUT = 300 := by
  refine ⟨?_, Nat.min_le_right timeout MAX_TIMEOUT, rfl⟩
  cases hres : resolve_connection pool connection_id t0 with
  | error err =>
    left
    refine ⟨err, by simp [wait_for_updates, hres], ?_⟩
    cases hf : pool.find? (fun c => c.id == connection_id) with
    | none => rfl
    | some c =>
      rw [resolve_connection, get_connection, hf] at hres
      cases hres
  | ok pr =>
    obtain ⟨conn, pool1⟩ := pr
    rcases hwl : wait_loop (filters.getD { since := since })
        (t0 + effective_timeout timeout) t0 pulls [] with ⟨finish, res⟩
    cases res with
    | inr m =>
      right; right; right
      exact ⟨m, finish - t0, by simp [wait_for_updates, hres, hwl]⟩
    | inl evs =>
      cases hemp : evs.isEmpty with
      | true =>
        right; right; left
        exact ⟨finish - t0, by simp [wait_for_updates, hres, hwl, hemp]⟩
      | false =>
        right; left
        refine ⟨evs, finish - t0, by simp [wait_for_updates, hres, hwl, hemp], ?_⟩
        intro hnil
        rw [hnil] at hemp
        cases hemp

/-! ### Claim C7: temporary connections are removed on every exit path -/

/-- Removing an id from the pool makes lookups of that id fail. -/
theorem find?_remove_connection (pool : ConnectionPool) (conn_id : String) :
    (remove_connection pool conn_id).find? (fun c => c.id == conn_id) = none := by
  rw [remove_connection]
  refine List.find?_eq_none.2 fun x hx => ?_
  have := (List.mem_filter.1 hx).2
  simpa using this

/-- C7: whenever the connection a `waitForUpdates` call resolves (or lazily
creates) carries truthy `"temporary"` metadata, the connection is no longer
registered when the call completes — on every exit path of the collection
loop (updates, timeout, or structured error), since the removal is
unconditional on the outcome. -/
theorem C7_temporary_removed (pool : ConnectionPool) (connection_id : String)
    (targets : Option (List String)) (timeout : Nat)
    (filters : Option EventFilter) (since : Option SinceVal)
    (t0 : Nat) (pulls : List (Nat × Pull)) (conn : Connection)
    (pool1 : ConnectionPool)
    (hres : resolve_connection pool connection_id t0 = .ok (conn, pool1))
    (htemp : getTruthy conn.metadata "temporary" = true) :
    ((wait_for_updates pool connection_id targets timeout filters since t0
        pulls).snd.find? (fun c => c.id == connection_id)) = none := by
  rcases hwl : wait_loop (filters.getD { since := since })
      (t0 + effective_timeout timeout) t0 pulls [] with ⟨finish, res⟩
  have htemp' : getTruthy
      ({ conn with
           subscriptions := add_subscriptions conn.subscriptions (wait_channels targets)
         }).metadata "temporary" = true := htemp
  simp only [wait_for_updates, hres, hwl, htemp', if_true]
  exact find?_remove_connection _ connection_id

/-- Witness for the C7 theorem on a concrete temporary connection. -/
theorem C7_temporary_removed_witness :
    ((wait_for_updates [connTemp] "ct" none 30 none none 0
        [(1, Pull.ev evLowW)]).snd.find? (fun c => c.id == "ct")) = none :=
  C7_temporary_removed [connTemp] "ct" none 30 none none 0
    [(1, Pull.ev evLowW)] connTemp [connTemp] (by decide) (by decide)

/-! ### Claim C10: lazily created connections persist -/

/-- Rewriting a missing id in a pool touches nothing the lookup of that id
can see, so a lookup past such a prefix continues into the suffix. -/
theorem find?_map_update_none (pool : ConnectionPool) (conn_id : String)
    (x : Connection)
    (h : pool.find? (fun c => c.id == conn_id) = none) :
    (pool.map (fun c => if c.id == conn_id then x else c)).find?
      (fun c => c.id == conn_id) = none := by
  have hall := List.find?_eq_none.1 h
  refine List.find?_eq_none.2 fun y hy => ?_
  obtain ⟨c, hc, rfl⟩ := List.mem_map.1 hy
  have hcf : (c.id == conn_id) = false := by
    simpa using hall c hc
  rw [hcf]
  simp [hcf]

/-- C10: a `waitForUpdates` call whose connection id is absent from a
below-capacity registry lazily creates the connection with empty metadata
(`create_connection` is called with no metadata argument), so it is never
marked `"temporary"`, and it is still registered in the pool when the call
returns. -/
theorem C10_lazy_connection_persists (pool : ConnectionPool)
    (connection_id : String) (targets : Option (List String)) (timeout : Nat)
    (filters : Option EventFilter) (since : Option SinceVal)
    (t0 : Nat) (pulls : List (Nat × Pull))
    (habs : pool.find? (fun c => c.id == connection_id) = none)
    (hcap : pool.length < MAX_CONNECTIONS) :
    resolve_connection pool connection_id t0 =
      .ok (freshConnection connection_id none t0,
        pool ++ [freshConnection connection_id none t0]) ∧
    (freshConnection connection_id none t0).metadata = [] ∧
    getTruthy (freshConnection connection_id none t0).metadata "temporary" = false ∧
    ∃ c, ((wait_for_updates pool connection_id targets timeout filters since t0
        pulls).snd.find? (fun d => d.id == connection_id)) = some c ∧
      c.id = connection_id := by
  have hres : resolve_connection pool connection_id t0 =
      .ok (freshConnection connection_id none t0,
        pool ++ [freshConnection connection_id none t0]) := by
    rw [resolve_connection, get_connection, habs]
    rw [create_connection, if_neg (by omega), if_neg (by rw [habs]; simp)]
  refine ⟨hres, rfl, rfl, ?_⟩
  rcases hwl : wait_loop (filters.getD { since := since })
      (t0 + effective_timeout timeout) t0 pulls [] with ⟨finish, res⟩
  simp only [wait_for_updates, hres, hwl]
  refine ⟨{ freshConnection connection_id none t0 with
              subscriptions := add_subscriptions
                (freshConnection connection_id none t0).subscriptions
                (wait_channels targets)
          }, ?_, rfl⟩
  rw [if_neg (by simp [getTruthy, freshConnection])]
  rw [List.map_append, List.find?_append,
    find?_map_update_none pool connection_id _ habs, Option.none_or]
  rw [List.map_cons, List.map_nil, List.find?_cons]
  simp [freshConnection]

/-- Witness for the C10 theorem on an empty registry. -/
theorem C10_lazy_connection_persists_witness :
    ∃ c, ((wait_for_updates [] "c1" none 30 none none 0
        [(1, Pull.ev evLowW)]).snd.find? (fun d => d.id == "c1")) = some c ∧
      c.id = "c1" :=
  (C10_lazy_connection_persists [] "c1" none 30 none none 0
    [(1, Pull.ev evLowW)] rfl (by decide)).2.2.2

end RemoteMcp
